import Mathlib

/-!
Verification development for the service layer of a fitness-tracking backend
(file src/app/auth/services.py). The service functions are embedded shallowly:
the SQLAlchemy session becomes an explicit in-memory database record of row
lists, ORM queries become list filters, and each service function is a pure
Lean function from its inputs and the database to its result and the updated
database. External collaborators that are not part of this repository
(passlib bcrypt, python-jose jwt, fastapi-mail, uuid, the environment-backed
settings object, and the ORM model classes) are modelled by explicit Lean
structures and functions, each documented at its definition.
-/

namespace GymApp

/-- Modelled from the spec: the configuration surface of section 6 of the
spec, produced by src.config.get_settings (not in src/): secret signing keys
for access and refresh tokens, algorithm name, token lifetimes in minutes,
base URL for verification links, and the email-enable flag. Times are
modelled in whole minutes, so a lifetime is added directly to a timestamp. -/
structure Settings where
  SECRET_SALT : String
  ALGORITHM : String
  ACCESS_TOKEN_EXPIRE_MINUTES : Nat
  REFRESH_TOKEN_EXP_MINUTES : Nat
  REFRESH_SECRET_SALT : String
  BASE_URL : String
  ENABLE_EMAIL : Bool
deriving DecidableEq, Repr

/-- Modelled from the spec: the User row of src.app.auth.models (not in
src/), per section 3 of the spec and its use in services.py: id, email,
display name, password hash. -/
structure User where
  id : Nat
  email : String
  name : String
  hashed_password : String
deriving DecidableEq, Repr

/-- Modelled from the spec: the Profile row (one-to-one with User), per
section 3 of the spec and create_user_profile in services.py. -/
structure Profile where
  gender : String
  age : Nat
  weight : Nat
  height : Nat
  goal : String
  physical_activity_level : String
  user_id : Nat
deriving DecidableEq, Repr

/-- Modelled from the spec: the Coach row (one-to-one with User), per
section 3 of the spec and create_coach_data / get_coach_data in services.py. -/
structure Coach where
  id : Nat
  user_id : Nat
  experience : Nat
  is_active : Bool
deriving DecidableEq, Repr

/-- Modelled from the spec: the Verification row, per section 3 of the spec
and create_verification_record in services.py: random token string and the
owning user reference. -/
structure Verification where
  verification_code : String
  user_id : Nat
deriving DecidableEq, Repr

/-- Modelled from the spec: the Workouts row of src.app.workout.models (not
in src/), per section 3 of the spec and save_workouts in services.py. -/
structure Workouts where
  id : Nat
  name : String
  target_muscle : String
  total_time : Nat
  description : String
  calories_burn : Nat
  workout_plan_id : Nat
deriving DecidableEq, Repr

/-- Modelled from the spec: the UserCreate input schema of
src.app.auth.schemas (not in src/), as used by create_user. -/
structure UserCreate where
  email : String
  name : String
  password : String
deriving DecidableEq, Repr

/-- Modelled from the spec: the WorkoutBase input schema of
src.app.workout.schemas (not in src/), as used by save_workouts. -/
structure WorkoutBase where
  name : String
  target_muscle : String
  total_time : Nat
  description : String
  calories_burn : Nat
  workout_plan_id : Nat
deriving DecidableEq, Repr

/-- Modelled from the spec: the OAuth2 login form consumed by
authentication, carrying a username (an email address) and a password. -/
structure OAuthForm where
  username : String
  password : String
deriving DecidableEq, Repr

/-- Modelled from the spec: the SQLAlchemy Session as an in-memory database:
one list per table, plus autoincrement counters for the rows whose ids the
code reads back after db.refresh. -/
structure DB where
  users : List User
  profiles : List Profile
  coaches : List Coach
  verifications : List Verification
  workouts : List Workouts
  nextUserId : Nat
  nextWorkoutId : Nat
deriving DecidableEq, Repr

/-- The empty database used by concrete examples. -/
def db0 : DB := ⟨[], [], [], [], [], 1, 1⟩

/-- Model of the Python str.lower method: lowercase every character. -/
def pyLower (s : String) : String := ⟨s.data.map Char.toLower⟩

/-- Model of the Python str.strip method: drop whitespace from both ends. -/
def pyStrip (s : String) : String :=
  ⟨((s.data.dropWhile Char.isWhitespace).reverse.dropWhile Char.isWhitespace).reverse⟩

/-- Modelled from the spec: the passlib bcrypt CryptContext hash is an
external library, not code of this repository. Per section 4.1 of the spec
it is a one-way adaptive hash; fixing the salt, it is modelled as a tagged
injective encoding whose output always carries the bcrypt marker, hence is
never the plaintext. -/
def bcrypt_hash (password : String) : String := "$2b$12$" ++ password

/-- Modelled from the spec: passlib bcrypt verification recomputes the hash
of the candidate with the parameters stored in the hash and compares; with
the fixed-salt model this is equality with the recomputed hash. -/
def bcrypt_verify (password hashed : String) : Bool := bcrypt_hash password == hashed

/-- Modelled from the spec: a token produced by jose jwt.encode, kept
abstract as its claim set, signing key and algorithm, per section 6 of
the spec (exact serialization is the standard library format). The expires
claim is serialized by Python str on a datetime, an injective rendering, so
it is modelled by the timestamp value itself (minutes since epoch). -/
structure TokenClaims where
  email : String
  id : Nat
  expires : Nat
deriving DecidableEq, Repr

/-- Modelled from the spec: the signed token returned by jwt.encode. -/
structure Jwt where
  claims : TokenClaims
  key : String
  alg : String
deriving DecidableEq, Repr

/-- Modelled from the spec: the message handed to the fastapi-mail
collaborator (subject, recipients, body, content subtype). -/
structure MessageSchema where
  subject : String
  recipients : List String
  body : String
  subtype : String
deriving DecidableEq, Repr

/-- Embeds create_access_token (services.py lines 29 to 33): expiry is the
current time plus the configured access-token minutes; the claim set is
email, id and the expiry; the signing key is SECRET_SALT and the algorithm
is ALGORITHM. The current time is an explicit argument in place of
datetime.utcnow. -/
def create_access_token (s : Settings) (now : Nat) (user : User) : Jwt :=
  let expires := now + s.ACCESS_TOKEN_EXPIRE_MINUTES
  { claims := { email := user.email, id := user.id, expires := expires },
    key := s.SECRET_SALT, alg := s.ALGORITHM }

/-- Embeds create_refresh_token (services.py lines 36 to 42): same claim
shape, expiry from the refresh-token minutes, signed with
REFRESH_SECRET_SALT under the same algorithm. -/
def create_refresh_token (s : Settings) (now : Nat) (user : User) : Jwt :=
  let expires_delta := now + s.REFRESH_TOKEN_EXP_MINUTES
  { claims := { email := user.email, id := user.id, expires := expires_delta },
    key := s.REFRESH_SECRET_SALT, alg := s.ALGORITHM }

/-- Embeds user_already_exists (services.py lines 45 to 47):
db.query(User).filter(User.email == email).first() becomes the head of the
users table filtered by string equality on email. -/
def user_already_exists (email : String) (db : DB) : Option User :=
  (db.users.filter (fun u => u.email == email)).head?

/-- Embeds create_user (services.py lines 50 to 59): builds a User with
lowercased and stripped email and name and the bcrypt hash of the password,
adds it, commits, and returns the refreshed row (its id assigned by the
autoincrement counter). -/
def create_user (db : DB) (user : UserCreate) : DB × User :=
  let db_user : User :=
    { id := db.nextUserId,
      email := pyStrip (pyLower user.email),
      name := pyStrip (pyLower user.name),
      hashed_password := bcrypt_hash user.password }
  ({ db with users := db.users ++ [db_user], nextUserId := db.nextUserId + 1 }, db_user)

/-- Embeds get_hashed_password (services.py lines 78 to 79). -/
def get_hashed_password (password : String) : String := bcrypt_hash password

/-- Embeds verify_password (services.py lines 82 to 83). -/
def verify_password (password : String) (hashed_pass : String) : Bool :=
  bcrypt_verify password hashed_pass

/-- Embeds authentication (services.py lines 86 to 93), generalized over
the password-verification function so that independence from it can be
stated: look up the user by the form username; if absent return the
not-found message; otherwise verify the password against the stored hash
and return either the mismatch message or the user with the found message. -/
def authenticationWith (vf : String → String → Bool) (form_data : OAuthForm) (db : DB) :
    Option User × String :=
  match user_already_exists form_data.username db with
  | none => (none, "User doesnt exists")
  | some db_user =>
    if vf form_data.password db_user.hashed_password then (some db_user, "User found")
    else (none, "Password didn\x27t match")

/-- The authentication of services.py, with its actual verifier. -/
def authentication (form_data : OAuthForm) (db : DB) : Option User × String :=
  authenticationWith verify_password form_data db

/-- Embeds create_verification_record (services.py lines 96 to 103): adds a
Verification row carrying the code and the user id and returns it. -/
def create_verification_record (user : User) (db : DB) (verification_code : String) :
    DB × Verification :=
  let verification : Verification := { verification_code := verification_code, user_id := user.id }
  ({ db with verifications := db.verifications ++ [verification] }, verification)

/-- The observable outcome of send_verification_email: the database after
the call, the message handed to the mail collaborator (none when nothing
was dispatched), and the line printed to standard output (none when
nothing was logged). -/
structure EmailOutcome where
  db : DB
  sent : Option MessageSchema
  log : Option String
deriving DecidableEq, Repr

/-- Embeds send_verification_email (services.py lines 106 to 122). The two
uuid4 values are explicit arguments u1 and u2 in place of the random
generator; the token is their concatenation and the link is built from
BASE_URL. When the user id resolves, a Verification row is persisted via
create_verification_record and the message is dispatched only when
ENABLE_EMAIL is set; otherwise the function logs and returns with the
database unchanged. -/
def send_verification_email (s : Settings) (u1 u2 : String) (user_id : Nat) (db : DB) :
    EmailOutcome :=
  let token := u1 ++ u2
  let verification_link := s.BASE_URL ++ "/verify-email?token=" ++ token
  match (db.users.filter (fun u => u.id == user_id)).head? with
  | some user =>
    let db1 := (create_verification_record user db token).1
    let message : MessageSchema :=
      { subject := "Email Verification",
        recipients := [user.email],
        body := "Click the link to verify your email: " ++ verification_link,
        subtype := "html" }
    { db := db1,
      sent := if s.ENABLE_EMAIL then some message else none,
      log := none }
  | none =>
    { db := db, sent := none, log := some ("User not found with user_id " ++ toString user_id) }

/-- Model of Python truthiness on an optional integer argument: None is
falsy and so is 0; every other integer is truthy. get_coach_data branches
on exactly this. -/
def pyTruthy : Option Nat → Bool
  | none => false
  | some n => n != 0

/-- The structure returned by a successful get_coach_data: the coach, the
linked user (UserOut.from_orm of coach.user) and that user its profile,
which the ORM relationship renders as None when absent. -/
structure CoachData where
  coach : Coach
  user : User
  profile : Option Profile
deriving DecidableEq, Repr

/-- Embeds services.py lines 148 to 155: after the branch lookup, if no
coach was found return None; otherwise build the result dictionary.
UserOut.from_orm applied to a missing linked user raises, modelled by the
error branch. The joined loads are modelled by looking the linked rows up
at this point. -/
def coach_to_data (db : DB) (found : Option Coach) : Except String (Option CoachData) :=
  match found with
  | none => .ok none
  | some coach =>
    match (db.users.filter (fun u => u.id == coach.user_id)).head? with
    | none => .error "UserOut.from_orm applied to a coach with no linked user"
    | some user =>
      .ok (some { coach := coach, user := user,
                  profile := (db.profiles.filter (fun p => p.user_id == user.id)).head? })

/-- Embeds get_coach_data (services.py lines 137 to 155): the two optional
integer arguments default to None, and each branch guard is Python
truthiness, so 0 behaves like an absent argument; the coach-id branch is
tried first, then the user-id branch, else None. -/
def get_coach_data (db : DB) (coach_id : Option Nat) (user_id : Option Nat) :
    Except String (Option CoachData) :=
  if pyTruthy coach_id then
    coach_to_data db ((db.coaches.filter (fun c => c.id == coach_id.getD 0)).head?)
  else if pyTruthy user_id then
    coach_to_data db ((db.coaches.filter (fun c => c.user_id == user_id.getD 0)).head?)
  else .ok none

/-- Embeds save_workouts (services.py lines 157 to 173). The whole body is
a try/except that catches every exception, logs, and returns None; the
possibility of an underlying persistence failure is modelled by the
explicit commit_ok flag. On success the inserted and refreshed row is
returned together with the updated database; on failure the function
returns None and the log line without raising, the session state left as it
was. -/
def save_workouts (db : DB) (workout : WorkoutBase) (commit_ok : Bool) :
    DB × Option Workouts × Option String :=
  if commit_ok then
    let db_workout : Workouts :=
      { id := db.nextWorkoutId,
        name := workout.name,
        target_muscle := workout.target_muscle,
        total_time := workout.total_time,
        description := workout.description,
        calories_burn := workout.calories_burn,
        workout_plan_id := workout.workout_plan_id }
    ({ db with workouts := db.workouts ++ [db_workout], nextWorkoutId := db.nextWorkoutId + 1 },
     some db_workout, none)
  else
    (db, none, some "Error in save workout Error")

/-- Embeds get_workout_by_id (services.py lines 175 to 179). -/
def get_workout_by_id (db : DB) (workout_id : Nat) : Option Workouts × String :=
  match (db.workouts.filter (fun w => w.id == workout_id)).head? with
  | none => (none, "Workout doesn\x27t exists ")
  | some db_workout => (some db_workout, "found")

/-- The bcrypt-class hash carries its scheme marker, so it is never the
plaintext: the output is strictly longer than the input. -/
theorem bcrypt_hash_ne_self (p : String) : bcrypt_hash p ≠ p := by
  intro h
  have hd : (("$2b$12$" : String) ++ p).data.length = p.data.length := by
    rw [show ("$2b$12$" : String) ++ p = p from h]
  simp [String.data_append] at hd
  omega

/-- With the salt fixed, the modelled bcrypt hash is injective. -/
theorem bcrypt_hash_injective (p q : String) (h : bcrypt_hash p = bcrypt_hash q) : p = q := by
  have hd : (("$2b$12$" : String) ++ p).data = (("$2b$12$" : String) ++ q).data :=
    congrArg String.data h
  simp [String.data_append] at hd
  exact String.ext hd

/-- A concrete settings record for witnesses: distinct access and refresh
secrets, 30 minute access tokens, email dispatch enabled. -/
def s0 : Settings := ⟨"access-secret", "HS256", 30, 10080, "refresh-secret", "http://localhost", true⟩

/-- A concrete registered user for witnesses. -/
def u0 : User := ⟨1, "alice@x.com", "alice", bcrypt_hash "pw"⟩

/-- A concrete database holding only u0. -/
def db1 : DB := ⟨[u0], [], [], [], [], 2, 1⟩

/-- A concrete registration input for examples around create_user. -/
def reg0 : UserCreate := ⟨"alice@x.com", "Alice", "pw"⟩

/-- C1: authentication looks the user up by email first and returns the
not-found message (for every possible verifier, so password verification is
never performed for an unknown email); a found user with a failing
verification yields the mismatch message; a found user with a passing
verification is returned with the found message. The not-found message of
the code is the exact string of services.py line 89. -/
theorem c1_authentication_order_and_messages :
    ∀ (db : DB) (form_data : OAuthForm),
      (user_already_exists form_data.username db = none →
        ∀ vf : String → String → Bool,
          authenticationWith vf form_data db = (none, "User doesnt exists")) ∧
      (∀ u, user_already_exists form_data.username db = some u →
        verify_password form_data.password u.hashed_password = false →
        authentication form_data db = (none, "Password didn\x27t match")) ∧
      (∀ u, user_already_exists form_data.username db = some u →
        verify_password form_data.password u.hashed_password = true →
        authentication form_data db = (some u, "User found")) := by
  intro db form_data
  refine ⟨?_, ?_, ?_⟩
  · intro h vf
    simp [authenticationWith, h]
  · intro u h hv
    simp [authentication, authenticationWith, h, hv]
  · intro u h hv
    simp [authentication, authenticationWith, h, hv]

/-- C1 counterexample: with an empty database no user carries the email,
yet the returned pair is not (none, "User doesn\x27t exist") — the code
spells the message "User doesnt exists". -/
theorem c1_counterexample :
    user_already_exists "a@b.c" db0 = none ∧
    authentication ⟨"a@b.c", "pw"⟩ db0 ≠ (none, "User doesn\x27t exist") := by
  constructor
  · decide
  · decide

/-- C1 witness: the three branches at concrete inputs. -/
theorem c1_witness :
    authenticationWith (fun _ _ => true) ⟨"bob@x.com", "anything"⟩ db1
      = (none, "User doesnt exists") ∧
    authentication ⟨"alice@x.com", "bad"⟩ db1 = (none, "Password didn\x27t match") ∧
    authentication ⟨"alice@x.com", "pw"⟩ db1 = (some u0, "User found") :=
  ⟨(c1_authentication_order_and_messages db1 ⟨"bob@x.com", "anything"⟩).1 (by decide) _,
   (c1_authentication_order_and_messages db1 ⟨"alice@x.com", "bad"⟩).2.1 u0 (by decide) (by decide),
   (c1_authentication_order_and_messages db1 ⟨"alice@x.com", "pw"⟩).2.2 u0 (by decide) (by decide)⟩

/-- C2 counterexample: create_user stores the lowercased email, but
authentication compares the raw username against the stored value, so a
letter-case variant of the registered email fails to authenticate even with
the correct password. -/
theorem c2_counterexample :
    (create_user db0 reg0).2.email = "alice@x.com" ∧
    (authentication ⟨"ALICE@X.COM", "pw"⟩ (create_user db0 reg0).1).1 = none := by
  constructor
  · decide
  · decide

/-- C2 amended: registering into a database with no user under the
normalized email and then authenticating with the lowercased and stripped
form of the registered email and the correct password returns exactly the
created user. -/
theorem c2_register_then_authenticate :
    ∀ (db : DB) (reg : UserCreate),
      user_already_exists (pyStrip (pyLower reg.email)) db = none →
      authentication ⟨pyStrip (pyLower reg.email), reg.password⟩ (create_user db reg).1
        = (some (create_user db reg).2, "User found") := by
  intro db reg h
  have hfil : db.users.filter (fun u => u.email == pyStrip (pyLower reg.email)) = [] := by
    simpa [user_already_exists, List.head?_eq_none_iff] using h
  simp [authentication, authenticationWith, user_already_exists, create_user,
        List.filter_append, hfil, verify_password, bcrypt_verify]

/-- C2 witness: the round trip at a concrete registration. -/
theorem c2_witness :
    authentication ⟨pyStrip (pyLower reg0.email), reg0.password⟩ (create_user db0 reg0).1
      = (some (create_user db0 reg0).2, "User found") :=
  c2_register_then_authenticate db0 reg0 (by decide)

/-- C3: the refresh token is signed with the refresh secret, carries the
same claim shape (email, id, expiry), its expiry comes from the
refresh-token lifetime, and whenever the two configured secrets differ the
two tokens are signed with different keys. -/
theorem c3_refresh_token_signing :
    ∀ (s : Settings) (now : Nat) (user : User),
      (create_refresh_token s now user).key = s.REFRESH_SECRET_SALT ∧
      (create_refresh_token s now user).claims =
        { email := user.email, id := user.id, expires := now + s.REFRESH_TOKEN_EXP_MINUTES } ∧
      (s.SECRET_SALT ≠ s.REFRESH_SECRET_SALT →
        (create_refresh_token s now user).key ≠ (create_access_token s now user).key) := by
  intro s now user
  refine ⟨rfl, rfl, ?_⟩
  intro hne hc
  exact hne (by simpa [create_access_token, create_refresh_token] using hc.symm)

/-- C3 witness: with distinct configured secrets the keys differ. -/
theorem c3_witness :
    (create_refresh_token s0 5 u0).key ≠ (create_access_token s0 5 u0).key :=
  (c3_refresh_token_signing s0 5 u0).2.2 (by decide)

/-- C4: the access token claim set is email, id and now plus the configured
minutes; two issuances for the same user at different times differ exactly
in the expiry claim while the identity claims coincide. -/
theorem c4_access_token_claims :
    ∀ (s : Settings) (user : User) (t1 t2 : Nat),
      (create_access_token s t1 user).claims.email = user.email ∧
      (create_access_token s t1 user).claims.id = user.id ∧
      (create_access_token s t1 user).claims.expires = t1 + s.ACCESS_TOKEN_EXPIRE_MINUTES ∧
      (create_access_token s t1 user).claims.email = (create_access_token s t2 user).claims.email ∧
      (create_access_token s t1 user).claims.id = (create_access_token s t2 user).claims.id ∧
      (t1 ≠ t2 →
        (create_access_token s t1 user).claims.expires
          ≠ (create_access_token s t2 user).claims.expires) := by
  intro s user t1 t2
  refine ⟨rfl, rfl, rfl, rfl, rfl, ?_⟩
  intro h hc
  simp [create_access_token] at hc
  omega

/-- C4 witness: two concrete issuance times give distinct expiry claims. -/
theorem c4_witness :
    (create_access_token s0 1 u0).claims.expires
      ≠ (create_access_token s0 2 u0).claims.expires :=
  (c4_access_token_claims s0 u0 1 2).2.2.2.2.2 (by decide)

/-- C5: create_user appends exactly the returned row, whose email and name
are the lowercased and stripped inputs and whose stored password is the
bcrypt-class hash of the input password, never the plaintext. -/
theorem c5_create_user_row :
    ∀ (db : DB) (user : UserCreate),
      (create_user db user).1.users = db.users ++ [(create_user db user).2] ∧
      (create_user db user).2.email = pyStrip (pyLower user.email) ∧
      (create_user db user).2.name = pyStrip (pyLower user.name) ∧
      (create_user db user).2.hashed_password = bcrypt_hash user.password ∧
      (create_user db user).2.hashed_password ≠ user.password := by
  intro db user
  exact ⟨rfl, rfl, rfl, rfl, bcrypt_hash_ne_self user.password⟩

/-- C6: the hash differs from any non-empty plaintext, verification accepts
the matching plaintext, rejects every other plaintext, and holds exactly
when the hash recomputed from the plaintext equals the stored hash. -/
theorem c6_hash_verify_contract :
    ∀ (p p2 h : String),
      (p ≠ "" → get_hashed_password p ≠ p) ∧
      verify_password p (get_hashed_password p) = true ∧
      (p ≠ p2 → verify_password p (get_hashed_password p2) = false) ∧
      (verify_password p h = true ↔ get_hashed_password p = h) := by
  intro p p2 h
  refine ⟨fun _ => bcrypt_hash_ne_self p, ?_, ?_, ?_⟩
  · simp [verify_password, bcrypt_verify, get_hashed_password]
  · intro hne
    simp [verify_password, bcrypt_verify, get_hashed_password]
    exact fun hc => hne (bcrypt_hash_injective p p2 hc)
  · simp [verify_password, bcrypt_verify, get_hashed_password]

/-- C6 witness: the contract at concrete plaintexts. -/
theorem c6_witness :
    get_hashed_password "a" ≠ "a" ∧ verify_password "a" (get_hashed_password "b") = false :=
  ⟨(c6_hash_verify_contract "a" "b" "").1 (by decide),
   (c6_hash_verify_contract "a" "b" "").2.2.1 (by decide)⟩

/-- C7: when the user id resolves, exactly one Verification row carrying
the concatenated token and the user id is appended (the users table is
untouched) and the message — addressed to the user and carrying the link
built from the token — is dispatched exactly when ENABLE_EMAIL is set; when
the id does not resolve, the database is unchanged, nothing is sent, and
the not-found line is logged. -/
theorem c7_send_verification_email_outcome :
    ∀ (s : Settings) (u1 u2 : String) (user_id : Nat) (db : DB),
      (∀ user, (db.users.filter (fun u => u.id == user_id)).head? = some user →
        (send_verification_email s u1 u2 user_id db).db.verifications
          = db.verifications ++ [{ verification_code := u1 ++ u2, user_id := user.id }] ∧
        (send_verification_email s u1 u2 user_id db).db.users = db.users ∧
        (send_verification_email s u1 u2 user_id db).sent
          = (if s.ENABLE_EMAIL then
               some { subject := "Email Verification",
                      recipients := [user.email],
                      body := "Click the link to verify your email: "
                        ++ (s.BASE_URL ++ "/verify-email?token=" ++ (u1 ++ u2)),
                      subtype := "html" }
             else none)) ∧
      ((db.users.filter (fun u => u.id == user_id)).head? = none →
        (send_verification_email s u1 u2 user_id db).db = db ∧
        (send_verification_email s u1 u2 user_id db).sent = none ∧
        (send_verification_email s u1 u2 user_id db).log
          = some ("User not found with user_id " ++ toString user_id)) := by
  intro s u1 u2 user_id db
  constructor
  · intro user hu
    refine ⟨?_, ?_, ?_⟩ <;> simp [send_verification_email, create_verification_record, hu]
  · intro hn
    refine ⟨?_, ?_, ?_⟩ <;> simp [send_verification_email, hn]

/-- C7 witness: a resolving and a non-resolving user id at concrete data. -/
theorem c7_witness :
    (send_verification_email s0 "uuid1-" "uuid2" 1 db1).db.verifications
      = db1.verifications ++ [{ verification_code := "uuid1-" ++ "uuid2", user_id := u0.id }] ∧
    (send_verification_email s0 "uuid1-" "uuid2" 99 db1).sent = none :=
  ⟨((c7_send_verification_email_outcome s0 "uuid1-" "uuid2" 1 db1).1 u0 (by decide)).1,
   ((c7_send_verification_email_outcome s0 "uuid1-" "uuid2" 99 db1).2 (by decide)).2.1⟩

/-- C8: a successful save returns the row whose fields equal the input and
appends it; a failing save returns none with the log line, leaving the
database as it was, and never raises (the embedding is a total function). -/
theorem c8_save_workouts_result :
    ∀ (db : DB) (workout : WorkoutBase),
      (save_workouts db workout true).2.1 = some
        { id := db.nextWorkoutId, name := workout.name,
          target_muscle := workout.target_muscle, total_time := workout.total_time,
          description := workout.description, calories_burn := workout.calories_burn,
          workout_plan_id := workout.workout_plan_id } ∧
      (save_workouts db workout true).1.workouts = db.workouts ++
        [{ id := db.nextWorkoutId, name := workout.name,
           target_muscle := workout.target_muscle, total_time := workout.total_time,
           description := workout.description, calories_burn := workout.calories_burn,
           workout_plan_id := workout.workout_plan_id }] ∧
      (save_workouts db workout false).2.1 = none ∧
      (save_workouts db workout false).2.2 = some "Error in save workout Error" ∧
      (save_workouts db workout false).1 = db := by
  intro db workout
  exact ⟨rfl, rfl, rfl, rfl, rfl⟩

/-- A concrete profile for the coach lookup witness. -/
def p0 : Profile := ⟨"f", 30, 60, 170, "fit", "high", 1⟩

/-- A concrete active coach linked to u0. -/
def c0 : Coach := ⟨1, 1, 5, true⟩

/-- A concrete database holding u0 with a profile and a coach record. -/
def db2 : DB := ⟨[u0], [p0], [c0], [], [], 2, 1⟩

/-- C9: with neither identifier the lookup returns none; a truthy coach id
selects the coach-id branch regardless of the user id; an empty match
returns none; a successful match returns the coach, its linked user, and
that user its profile. -/
theorem c9_get_coach_lookup :
    ∀ (db : DB) (cid uid : Option Nat),
      get_coach_data db none none = .ok none ∧
      (pyTruthy cid = true → get_coach_data db cid uid = get_coach_data db cid none) ∧
      (pyTruthy cid = true →
        (db.coaches.filter (fun c => c.id == cid.getD 0)).head? = none →
        get_coach_data db cid uid = .ok none) ∧
      (∀ coach user, pyTruthy cid = true →
        (db.coaches.filter (fun c => c.id == cid.getD 0)).head? = some coach →
        (db.users.filter (fun u => u.id == coach.user_id)).head? = some user →
        get_coach_data db cid uid = .ok (some
          { coach := coach, user := user,
            profile := (db.profiles.filter (fun p => p.user_id == user.id)).head? })) := by
  intro db cid uid
  refine ⟨rfl, ?_, ?_, ?_⟩
  · intro ht
    simp [get_coach_data, ht]
  · intro ht hn
    simp [get_coach_data, ht, hn, coach_to_data]
  · intro coach user ht hc hu
    simp [get_coach_data, ht, hc, hu, coach_to_data]

/-- C9 witness: a successful lookup and a missing-coach lookup at concrete
data. -/
theorem c9_witness :
    get_coach_data db2 (some 1) (some 1) = .ok (some
      { coach := c0, user := u0,
        profile := (db2.profiles.filter (fun p => p.user_id == u0.id)).head? }) ∧
    get_coach_data db2 (some 7) none = .ok none :=
  ⟨(c9_get_coach_lookup db2 (some 1) (some 1)).2.2.2 c0 u0 (by decide) (by decide) (by decide),
   (c9_get_coach_lookup db2 (some 7) none).2.2.1 (by decide) (by decide)⟩

/-- C10: a coach id of 0 is falsy, so the call behaves exactly as if no
coach id had been supplied: it falls through to the user-id lookup, and
with an absent or zero user id it returns none — even on a database whose
coaches table contains a coach with id 0, as the universally quantified
database allows. -/
theorem c10_zero_coach_id_falls_through :
    ∀ (db : DB) (uid : Option Nat),
      get_coach_data db (some 0) uid = get_coach_data db none uid ∧
      get_coach_data db (some 0) none = .ok none ∧
      get_coach_data db (some 0) (some 0) = .ok none := by
  intro db uid
  exact ⟨rfl, rfl, rfl⟩

end GymApp
